import Mathlib

/-!
Verification of the scheduled broadcast dispatcher ("sender" repository).

This file shallowly embeds the parts of the program that the claims are
about and proves/refutes each claim:

* `src/src/scheduling/cron_utils.py` — `calculate_interval_hours`,
  `adjust_cron_interval`, `humanize_seconds`,
  `format_schedule_change_message`;
* `src/settings.py` / `src/src/core/settings.py` — `check_cron`,
  `check_cron_tz`, `Setting.should_be_run`;
* `src/src/messaging/error_handlers.py` and the historical copy in
  `src/sender.py` — `handle_slow_mode_error`;
* `src/src/messaging/orchestrator.py` / `src/sender.py` —
  `process_setting_outer`, `process_client`;
* `src/account/account.py` — `AccountCollection.session`;
* `src/src/messaging/telegram_sender.py` — `_get_grouped_message_ids`,
  `_forward_grouped_or_single`;
* `src/src/utils/telegram_utils.py` — `parse_chat_and_topic`.

Modelling conventions: instants are naive wall-clock minutes (a `Nat`
counting minutes since 2000-01-01 00:00, which was a Saturday); cron never
fires at sub-minute granularity so this loses nothing.  A timezone is a
fixed eastward offset in minutes (Europe/Moscow has had a fixed offset
since 2014).  `croniter`'s unbounded forward search is given an explicit
search bound (`croniter` itself gives up after a bounded number of years
and raises); Python float quantities (the average interval in hours, the
`ceil(wait·1.2/3600)` requirement) are modelled by exact integer
fractions — the concrete values appearing in the claims are far from any
rounding boundary.  Network effects (the Telegram client, the log store,
the config store) are passed in as explicit data.
-/

set_option maxRecDepth 100000
set_option maxHeartbeats 1000000

namespace Sender

/-! ### Python string helpers -/

/-- Python `str.split()` with no argument: split on runs of spaces,
dropping empty pieces (so a leading `strip()` is subsumed).  The
accumulator holds the current word reversed.  Only the space separator is
modelled; cron fields in this program are space separated. -/
def splitSpAux : List Char → List Char → List (List Char)
  | [], acc => if acc.isEmpty then [] else [acc.reverse]
  | c :: r, acc =>
    if c = ' ' then
      if acc.isEmpty then splitSpAux r [] else acc.reverse :: splitSpAux r []
    else splitSpAux r (c :: acc)

/-- `cron_expr.strip().split()` from `adjust_cron_interval`. -/
def pyFields (s : String) : List String := (splitSpAux s.data []).map List.asString

/-- Digit characters used to embed Python's `str(int)` formatting. -/
def digitChar : Nat → Char
  | 0 => '0' | 1 => '1' | 2 => '2' | 3 => '3' | 4 => '4'
  | 5 => '5' | 6 => '6' | 7 => '7' | 8 => '8' | _ => '9'

/-- Decimal digits of `n`, most significant first (fuel-driven; `fuel = n+1`
always suffices). -/
def natCharsAux : Nat → Nat → List Char
  | 0, _ => []
  | fuel + 1, n =>
    if n < 10 then [digitChar n] else natCharsAux fuel (n / 10) ++ [digitChar (n % 10)]

/-- Python `str(n)` for a natural number. -/
def natRepr (n : Nat) : String := ⟨natCharsAux (n + 1) n⟩

/-- Is `sub` a contiguous sublist of `l`? -/
def containsSubAux (sub : List Char) : List Char → Bool
  | [] => sub.isEmpty
  | c :: r => sub.isPrefixOf (c :: r) || containsSubAux sub r

/-- Python `sub in s` for strings. -/
def containsSub (sub s : String) : Bool := containsSubAux sub.data s.data

/-- Python `s.lower()` (ASCII case folding suffices for the strings the
program compares). -/
def pyLower (s : String) : String := ⟨s.data.map Char.toLower⟩

/-- Python `s.startswith(pre)`. -/
def pyStartsWith (s pre : String) : Bool := List.isPrefixOf pre.data s.data

/-- Python `c in s` for a single character. -/
def pyContainsChar (s : String) (c : Char) : Bool := s.data.contains c

/-- ASCII decimal digit test. -/
def isDigitCh (c : Char) : Bool := '0' ≤ c && c ≤ '9'

/-- Python `s.isdigit()` (the ASCII fragment; exotic Unicode digits are
not modelled). -/
def isdigitStr (s : String) : Bool := !s.data.isEmpty && s.data.all isDigitCh

/-! ### Calendar arithmetic (naive wall clock, minutes since 2000-01-01) -/

def isLeap (y : Nat) : Bool := y % 4 = 0 && (y % 100 ≠ 0 || y % 400 = 0)

def daysInMonth (y m : Nat) : Nat :=
  match m with
  | 1 => 31 | 2 => if isLeap y then 29 else 28 | 3 => 31 | 4 => 30
  | 5 => 31 | 6 => 30 | 7 => 31 | 8 => 31 | 9 => 30 | 10 => 31
  | 11 => 30 | _ => 31

def daysInYear (y : Nat) : Nat := if isLeap y then 366 else 365

/-- Walk forward year by year: `(year, day-of-year)` (fuel-driven). -/
def findYear : Nat → Nat → Nat → Nat × Nat
  | 0, y, d => (y, d)
  | fuel + 1, y, d =>
    if d < daysInYear y then (y, d) else findYear fuel (y + 1) (d - daysInYear y)

/-- Walk forward month by month inside a year: `(month, day-of-month0)`. -/
def findMonth : Nat → Nat → Nat → Nat → Nat × Nat
  | 0, _, m, d => (m, d)
  | fuel + 1, y, m, d =>
    if d < daysInMonth y m then (m, d) else findMonth fuel y (m + 1) (d - daysInMonth y m)

/-- The calendar fields cron looks at, for one wall-clock minute. -/
structure WallClock where
  minute : Nat
  hour : Nat
  dom : Nat
  month : Nat
  dow : Nat
deriving DecidableEq, Repr

/-- Calendar fields of minute `t` (2000-01-01 was a Saturday, cron day 6). -/
def toWallClock (t : Nat) : WallClock :=
  let days := t / 1440
  let yd := findYear (days + 1) 2000 days
  let md := findMonth 12 yd.1 1 yd.2
  { minute := t % 60, hour := t / 60 % 24, dom := md.2 + 1, month := md.1
    dow := (days + 6) % 7 }

/-! ### Cron expressions (croniter's 5-field dialect as this program uses it) -/

/-- One parsed cron field.  `star` records whether the field was literally
`*` — croniter treats only that as "unrestricted" for the day-of-month /
day-of-week disjunction rule. -/
structure CronField where
  star : Bool
  vals : List Nat
deriving DecidableEq, Repr

def fieldMatch (f : CronField) (v : Nat) : Bool := f.star || f.vals.contains v

structure Cron where
  minute : CronField
  hour : CronField
  dom : CronField
  month : CronField
  dow : CronField
deriving DecidableEq, Repr

/-- Split a character list on every occurrence of `sep` (keeping empties). -/
def splitOnChar (sep : Char) : List Char → List (List Char)
  | [] => [[]]
  | c :: r =>
    if c = sep then [] :: splitOnChar sep r
    else
      match splitOnChar sep r with
      | [] => [[c]]
      | w :: ws => (c :: w) :: ws

def digitVal (c : Char) : Option Nat :=
  if isDigitCh c then some (c.toNat - '0'.toNat) else none

def parseNatAux : List Char → Nat → Option Nat
  | [], acc => some acc
  | c :: r, acc =>
    match digitVal c with
    | none => none
    | some d => parseNatAux r (acc * 10 + d)

/-- A non-empty all-digit numeral. -/
def parseNatChars : List Char → Option Nat
  | [] => none
  | l => parseNatAux l 0

def monthNames : List (List Char × Nat) :=
  [("jan".data, 1), ("feb".data, 2), ("mar".data, 3), ("apr".data, 4),
   ("may".data, 5), ("jun".data, 6), ("jul".data, 7), ("aug".data, 8),
   ("sep".data, 9), ("oct".data, 10), ("nov".data, 11), ("dec".data, 12)]

def dowNames : List (List Char × Nat) :=
  [("sun".data, 0), ("mon".data, 1), ("tue".data, 2), ("wed".data, 3),
   ("thu".data, 4), ("fri".data, 5), ("sat".data, 6)]

/-- A single value: a numeral or a (case-insensitive) name. -/
def parseBase (names : List (List Char × Nat)) (l : List Char) : Option Nat :=
  match parseNatChars l with
  | some n => some n
  | none => names.lookup (l.map Char.toLower)

/-- One comma-separated item: `a`, `a-b`, `*`, optionally with `/step`
(steps on wrapped ranges are not modelled — the program never writes
them). Produces the matching values, checked against `[lo, hi]`. -/
def parseItem (names : List (List Char × Nat)) (lo hi : Nat) (item : List Char) :
    Option (List Nat) :=
  let expand : List Char → Nat → Option (List Nat) := fun base step =>
    if step = 0 then none
    else if base = ['*'] then
      some ((List.range' lo (hi - lo + 1)).filter (fun v => (v - lo) % step = 0))
    else if base.contains '-' then
      match splitOnChar '-' base with
      | [aCh, bCh] =>
        match parseBase names aCh, parseBase names bCh with
        | some a, some b =>
          if lo ≤ a ∧ a ≤ b ∧ b ≤ hi then
            some ((List.range' a (b - a + 1)).filter (fun v => (v - a) % step = 0))
          else none
        | _, _ => none
      | _ => none
    else
      match parseBase names base with
      | some a => if lo ≤ a ∧ a ≤ hi ∧ step = 1 then some [a] else none
      | none => none
  match splitOnChar '/' item with
  | [base] => expand base 1
  | [base, stepCh] =>
    match parseNatChars stepCh with
    | some step => expand base step
    | none => none
  | _ => none

/-- Parse one whole cron field. -/
def parseField (names : List (List Char × Nat)) (lo hi : Nat) (s : String) :
    Option CronField :=
  if s = "*" then some ⟨true, List.range' lo (hi - lo + 1)⟩
  else
    match (splitOnChar ',' s.data).mapM (parseItem names lo hi) with
    | some ls => some ⟨false, ls.flatten⟩
    | none => none

/-- Parse a 5-field cron expression (croniter additionally accepts 6
fields; this program only ever uses 5).  Day-of-week names map to 0–6 and
a numeric 7 means Sunday, as in croniter. -/
def parseCron5 : List String → Option Cron
  | [mi, h, d, mo, w] => do
    let fmi ← parseField [] 0 59 mi
    let fh ← parseField [] 0 23 h
    let fd ← parseField [] 1 31 d
    let fmo ← parseField monthNames 1 12 mo
    let fw ← parseField dowNames 0 7 w
    some ⟨fmi, fh, fd, fmo, ⟨fw.star, fw.vals.map (· % 7)⟩⟩
  | _ => none

def parseCronStr (s : String) : Option Cron := parseCron5 (pyFields s)

/-- Does the schedule fire at wall-clock minute `t`?  Standard cron
semantics: when both day-of-month and day-of-week are restricted they are
OR-ed, otherwise AND-ed. -/
def cronMatches (c : Cron) (t : Nat) : Bool :=
  let w := toWallClock t
  fieldMatch c.minute w.minute && fieldMatch c.hour w.hour &&
    fieldMatch c.month w.month &&
    (if !c.dom.star && !c.dow.star then
      fieldMatch c.dom w.dom || fieldMatch c.dow w.dow
    else
      fieldMatch c.dom w.dom && fieldMatch c.dow w.dow)

/-- Linear search for the first firing minute at or after `start`,
examining `fuel` candidates. -/
def findFirstMatch (c : Cron) : Nat → Nat → Option Nat
  | _, 0 => none
  | start, fuel + 1 =>
    if cronMatches c start then some start else findFirstMatch c (start + 1) fuel

/-- `croniter(crontab, last_run).get_next(datetime)`: the first firing
strictly after `last`.  `none` models croniter exhausting its search and
raising. -/
def get_next (c : Cron) (last bound : Nat) : Option Nat :=
  findFirstMatch c (last + 1) bound

/-- `check_cron` from `settings.py`: `next_run <= now`.  `none` models the
croniter exception propagating. -/
def check_cron (c : Cron) (last now bound : Nat) : Option Bool :=
  (get_next c last bound).map (fun nxt => decide (nxt ≤ now))

/-- `check_cron_tz`: both instants are converted to the schedule's
timezone wall clock (a fixed eastward offset in minutes) before the
check. -/
def check_cron_tz (c : Cron) (tzOffset last now bound : Nat) : Option Bool :=
  check_cron c (last + tzOffset) (now + tzOffset) bound

/-! ### `cron_utils.py` -/

/-- `humanize_seconds` from `cron_utils.py`. -/
def humanize_seconds (seconds : Nat) : String :=
  if seconds < 60 then natRepr seconds ++ " секунд"
  else if seconds < 3600 then
    let minutes := seconds / 60
    if minutes = 1 then "1 минуту"
    else if minutes < 5 then natRepr minutes ++ " минуты"
    else natRepr minutes ++ " минут"
  else
    let hours := seconds / 3600
    if hours = 1 then "1 час"
    else if hours < 5 then natRepr hours ++ " часа"
    else natRepr hours ++ " часов"

/-- The sampling loop of `calculate_interval_hours`: up to 100 successive
`get_next` calls starting from `now`, stopping at the first run more than
7 days (10080 minutes) past `now`; `none` models a croniter exception mid
loop. -/
def collectRuns (c : Cron) (now bound : Nat) : Nat → Nat → Option (List Nat)
  | 0, _ => some []
  | fuel + 1, cur =>
    match findFirstMatch c (cur + 1) bound with
    | none => none
    | some nxt =>
      if now + 10080 < nxt then some []
      else (collectRuns c now bound fuel nxt).map (nxt :: ·)

/-- `calculate_interval_hours` from `cron_utils.py`: mean gap in hours
between scheduled runs over a 7-day horizon (at most 100 samples), with
`24 * 7` returned when parsing fails, iteration fails or fewer than two
runs fall in the horizon.  `now` (the sampling start, `datetime.now()` in
the source) and the search bound are explicit parameters.  The mean
`(Σ gapᵢ/60) / n = Σ gapᵢ / (60·n)` hours is kept as the exact fraction
`(numerator, denominator)` — Python's float mean, compared exactly. -/
def calculate_interval_hours (cron_expr : String) (now bound : Nat) : Nat × Nat :=
  match parseCronStr cron_expr with
  | none => (24 * 7, 1)
  | some c =>
    match collectRuns c now bound 100 now with
    | none => (24 * 7, 1)
    | some runs =>
      if runs.length < 2 then (24 * 7, 1)
      else
        let intervals := (runs.zip runs.tail).map (fun p => p.2 - p.1)
        (intervals.sum, 60 * intervals.length)

/-- Join fields with single spaces: the f-strings
`f"0 0 {day} {month} {dow}"` / `f"{new_minute} {new_hour} {day} {month} {dow}"`
of `adjust_cron_interval` build exactly this. -/
def joinFields : List String → String
  | [] => ""
  | [x] => x
  | x :: xs => x ++ " " ++ joinFields xs

/-- `adjust_cron_interval` from `cron_utils.py`.  `none` models the
`ValueError` raised when the expression does not have exactly 5 fields.
The four hour-field cases of the source (`*`/`*/N`, list or single digit,
range, anything else) are kept separate even though they build the same
string. -/
def adjust_cron_interval (cron_expr : String) (required_hours : Nat)
    (now bound : Nat) : Option String :=
  match pyFields cron_expr with
  | [_minute, hour, day, month, dow] =>
    let currentInterval := calculate_interval_hours cron_expr now bound
    -- `current_interval_hours >= required_hours`, cross-multiplied by the
    -- (positive) denominator of the exact mean.
    if required_hours * currentInterval.2 ≤ currentInterval.1 then some cron_expr
    else if 24 < required_hours then some (joinFields ["0", "0", day, month, dow])
    else if pyStartsWith hour "*/" || hour = "*" then
      some (joinFields ["0", "*/" ++ natRepr required_hours, day, month, dow])
    else if pyContainsChar hour ',' || isdigitStr hour then
      some (joinFields ["0", "*/" ++ natRepr required_hours, day, month, dow])
    else if pyContainsChar hour '-' then
      some (joinFields ["0", "*/" ++ natRepr required_hours, day, month, dow])
    else some (joinFields ["0", "*/" ++ natRepr required_hours, day, month, dow])
  | _ => none

/-- `format_schedule_change_message` from `cron_utils.py`. -/
def format_schedule_change_message (wait_seconds : Nat)
    (old_schedule new_schedule : String) (_required_hours affected_count : Nat) :
    String :=
  "Автоматически изменено расписание с '" ++ old_schedule ++ "' на '" ++
    new_schedule ++ "' из-за slow mode в чате (требуется подождать " ++
    humanize_seconds wait_seconds ++ "). " ++ "Применено ко всем " ++
    natRepr affected_count ++ " настройкам для этого чата."

/-! ### The data model: rules ("settings") and clients -/

/-- One configuration row (`Setting` in `src/src/core/settings.py`).  The
source allows `active : int | bool` and stores falsy `0` to disable; the
embedding uses `Bool` (the program only ever tests truthiness). -/
structure Setting where
  active : Bool
  account : String
  schedule : String
  chat_id : String
  text : String
  error : String := ""
  link : String := ""
deriving DecidableEq, Repr

/-- A client group: the rows of one spreadsheet
(`Client` in `src/clients.py`, `settings` attribute). -/
structure Client where
  settings : List Setting
deriving DecidableEq, Repr

/-- `Setting.should_be_run`: cron evaluation of the schedule against the
last successful run, in the Europe/Moscow wall clock.  `Except.error`
models the croniter exceptions that `process_setting_outer` catches. -/
def should_be_run (setting : Setting) (tzOffset last now bound : Nat) :
    Except Unit Bool :=
  match parseCronStr setting.schedule with
  | none => .error ()
  | some c =>
    match check_cron_tz c tzOffset last now bound with
    | none => .error ()
    | some b => .ok (setting.active && b)

/-! ### `error_handlers.py` / the slow-mode rewrite -/

/-- `ceil(a / b)` on naturals: `ceil(wait_seconds * 1.2 / 3600)` is the
exact rational `wait_seconds * 6 / 18000` rounded up. -/
def ceilDiv (a b : Nat) : Nat := (a + b - 1) / b

/-- What one slow-mode invocation produces: the mutated settings list,
every `update_settings_in_gsheets` call (as its field list) and the
returned result message. -/
structure SlowModeOutcome where
  settings : List Setting
  gsheetWrites : List (List String)
  message : String
deriving DecidableEq, Repr

/-- `handle_slow_mode_error` from `src/src/messaging/error_handlers.py`
(the version the current pipeline `src/src/messaging/sender.py` calls).
In-place mutation of the related settings becomes a map over the list;
`none` models an `InvalidScheduleError` escaping from
`adjust_cron_interval`. -/
def handle_slow_mode_error (client : Client) (setting : Setting)
    (wait_seconds : Int) (now bound : Nat) : Option SlowModeOutcome :=
  let ws : Nat := if wait_seconds ≤ 0 then 3600 else wait_seconds.toNat
  let required_hours := ceilDiv (ws * 6) 18000
  let related := client.settings.filter
    (fun s => s.chat_id = setting.chat_id && s.active)
  if related.isEmpty then
    some ⟨client.settings, [], "No active settings found for this chat"⟩
  else
    let step : Setting → Option (Setting × Bool) := fun s =>
      if s.chat_id = setting.chat_id && s.active then
        (adjust_cron_interval s.schedule required_hours now bound).map fun ns =>
          if ns ≠ s.schedule then
            ({ s with
                schedule := ns,
                error := format_schedule_change_message ws s.schedule ns
                  required_hours related.length }, true)
          else (s, false)
      else some (s, false)
    match client.settings.mapM step with
    | none => none
    | some pairs =>
      let updated_count := (pairs.filter (·.2)).length
      let settings1 := pairs.map (·.1)
      if 0 < updated_count then
        some ⟨settings1, [["schedule", "error", "link"]],
          "Schedule auto-adjusted to every " ++ natRepr required_hours ++
            " hours for " ++ natRepr updated_count ++ " settings in chat " ++
            setting.chat_id⟩
      else
        let error_message :=
          "Обнаружен slow mode в чате, но расписания уже оптимальны (ожидание: " ++
            humanize_seconds ws ++ "). " ++ "Проверьте " ++
            natRepr related.length ++ " настроек для этого чата."
        let settings2 := settings1.map fun s =>
          if s.chat_id = setting.chat_id && s.active then
            { s with error := error_message }
          else s
        some ⟨settings2, [["schedule", "error", "link"]],
          "No schedule adjustments needed - current intervals already sufficient for " ++
            natRepr related.length ++ " settings in chat " ++ setting.chat_id⟩

/-- The historical `handle_slow_mode_error` kept in `src/sender.py`: same
rewrite, but the write-back names only `schedule` and `error`, and the
already-sufficient branch stamps no error message. -/
def sender_handle_slow_mode_error (client : Client) (setting : Setting)
    (wait_seconds : Int) (now bound : Nat) : Option SlowModeOutcome :=
  let ws : Nat := if wait_seconds ≤ 0 then 3600 else wait_seconds.toNat
  let required_hours := ceilDiv (ws * 6) 18000
  let related := client.settings.filter
    (fun s => s.chat_id = setting.chat_id && s.active)
  if related.isEmpty then
    some ⟨client.settings, [], "No active settings found for this chat"⟩
  else
    let step : Setting → Option (Setting × Bool) := fun s =>
      if s.chat_id = setting.chat_id && s.active then
        (adjust_cron_interval s.schedule required_hours now bound).map fun ns =>
          if ns ≠ s.schedule then
            ({ s with
                schedule := ns,
                error := format_schedule_change_message ws s.schedule ns
                  required_hours related.length }, true)
          else (s, false)
      else some (s, false)
    match client.settings.mapM step with
    | none => none
    | some pairs =>
      let updated_count := (pairs.filter (·.2)).length
      let settings1 := pairs.map (·.1)
      some ⟨settings1, [["schedule", "error"]],
        if 0 < updated_count then
          "Schedule auto-adjusted to every " ++ natRepr required_hours ++
            " hours for " ++ natRepr updated_count ++ " settings in chat " ++
            setting.chat_id
        else
          "No schedule adjustments needed - current intervals already sufficient for " ++
            natRepr related.length ++ " settings in chat " ++ setting.chat_id⟩

/-- The first rule of the C4 scenario: active, `*/30 * * * *`, chat
`chatA`. -/
def slowModeSettingA : Setting :=
  { active := true, account := "79990000001", schedule := "*/30 * * * *"
    chat_id := "chatA", text := "hello one" }

/-- The second rule of the C4 scenario: same chat and schedule. -/
def slowModeSettingB : Setting :=
  { active := true, account := "79990000002", schedule := "*/30 * * * *"
    chat_id := "chatA", text := "hello two" }

/-- The C4 scenario client: exactly the two rules above. -/
def slowModeClient : Client := ⟨[slowModeSettingA, slowModeSettingB]⟩

/-! ### `orchestrator.py` / per-rule dispatch -/

/-- The success payload `send_setting` returns: destination chat, topic
and resulting message IDs (the source omits the `message_ids` key when it
cannot extract IDs; here that is the empty list, which the source never
stores). -/
structure MessageInfo where
  chat_id : String
  topic_id : Option Int
  message_ids : List Nat
deriving DecidableEq, Repr

/-- Everything one `process_setting_outer` call produces: the mutated
rule, the final outcome string, the statistics pair, whether
`send_setting` was invoked, and the `errors[hash]` entry if one was
added. -/
structure ProcOutcome where
  setting : Setting
  result : String
  was_processed : Bool
  was_successful : Bool
  send_invoked : Bool
  error_recorded : Option String
deriving DecidableEq, Repr

/-- `process_setting_outer` from `src/src/messaging/orchestrator.py`
(the `src/sender.py` copy differs only in how the permalink is stored).
External effects are explicit data: `lastSuccess` is the log store's last
successful entry, `sendOutcome` is what `send_setting` would return if
invoked, `logOk` tells whether the log-store write succeeds (`logTb` its
traceback text), `timestamp` the formatted Moscow time, `linkGen` the
result of permalink generation. -/
def process_setting_outer (setting : Setting) (lastSuccess : Option Nat)
    (tzOffset now bound : Nat) (sendOutcome : String × Option MessageInfo)
    (logOk : Bool) (logTb : String) (timestamp : String)
    (linkGen : Option String) : ProcOutcome :=
  let p1 : String × Bool × Bool × Bool × Option MessageInfo :=
    if setting.active then
      match lastSuccess with
      | none =>
        ("Message was never sent before: logged successfully", true, true, false, none)
      | some last =>
        match should_be_run setting tzOffset last now bound with
        | .error _ =>
          ("Error: Could not figure out the crontab setting", false, false, false, none)
        | .ok true => (sendOutcome.1, true, false, true, sendOutcome.2)
        | .ok false => ("Message already sent recently", false, false, false, none)
    else ("Setting skipped", false, false, false, none)
  let was_processed := p1.2.1
  let was_successful0 := p1.2.2.1
  let send_invoked := p1.2.2.2.1
  let message_info := p1.2.2.2.2
  let result := if logOk then p1.1 else "Logging error: " ++ logTb
  if containsSub "error" (pyLower result) then
    { setting := { setting with error := result, active := false }
      result := result, was_processed := was_processed
      was_successful := if was_processed then false else was_successful0
      send_invoked := send_invoked, error_recorded := some result }
  else if containsSub "successfully" (pyLower result) then
    let link :=
      match message_info with
      | some mi =>
        if mi.message_ids ≠ [] then
          match linkGen with
          | some l => l
          | none => ""
        else ""
      | none => ""
    { setting := { setting with error := "ОК: " ++ timestamp, link := link }
      result := result, was_processed := was_processed
      was_successful := true, send_invoked := send_invoked
      error_recorded := none }
  else
    { setting := setting, result := result, was_processed := was_processed
      was_successful := was_successful0, send_invoked := send_invoked
      error_recorded := none }

/-! ### `account.py`: the pool session and its advisory lock -/

/-- The shared session store, reduced to what `AccountCollection.session`
reads of it: whether the `.session_lock` marker exists. -/
structure LockFS where
  lockExists : Bool
deriving DecidableEq, Repr

/-- One pooled account: its phone, whether it is currently started, and
whether a start attempt would succeed (the network outcome, as data). -/
structure PoolAccount where
  phone : String
  started : Bool
  startOk : Bool
deriving DecidableEq, Repr

/-- `Account.start`: on success the account is marked started. -/
def startAccount (a : PoolAccount) : PoolAccount :=
  if a.startOk then { a with started := true } else a

/-- `Account.stop`: a no-op unless started. -/
def stopAccount (a : PoolAccount) : PoolAccount :=
  if a.started then { a with started := false } else a

/-- What one `AccountCollection.session` scope does. -/
structure SessionRun where
  fsAfter : LockFS
  accountsAfter : List PoolAccount
  startAttempts : Nat
  raised : Option String
  bodyRan : Bool
deriving DecidableEq, Repr

/-- `AccountCollection.session` from `src/account/account.py`.  The lock
marker is checked **before** the `try` block: when it exists the
`RuntimeError("Sessions are already in use")` propagates with no start
attempted, no body run, and the marker untouched (the `finally` clause
never runs).  Otherwise every account is started concurrently
(`start_sessions`; with `invalid ≠ "ignore"` a failure re-raises after
the wait), the marker is touched, the body runs, and on exit the marker
is removed and every started account is stopped.  The marker removal is
modelled as unconditional (`fs.rm`'s own failure on a never-created
marker is not modelled). -/
def accountCollectionSession (fs : LockFS) (accounts : List PoolAccount)
    (invalid : String) : SessionRun :=
  if fs.lockExists then
    { fsAfter := fs, accountsAfter := accounts, startAttempts := 0
      raised := some "Sessions are already in use", bodyRan := false }
  else
    let started := accounts.map startAccount
    let anyFailed := accounts.any (fun a => !a.startOk)
    if invalid != "ignore" && anyFailed then
      { fsAfter := { lockExists := false }
        accountsAfter := started.map stopAccount
        startAttempts := accounts.length
        raised := some "AccountStartFailed", bodyRan := false }
    else
      { fsAfter := { lockExists := false }
        accountsAfter := started.map stopAccount
        startAttempts := accounts.length
        raised := none, bodyRan := true }

/-- What one `process_client` call produces. -/
structure ClientRun where
  settingsAfter : List Setting
  criticalError : Option String
  processedCount : Nat
deriving DecidableEq, Repr

/-- `process_client` from `src/sender.py`, to the depth C8 needs: rules
are loaded, and only when some rule is active is the pool session opened
(with `invalid = "raise"`, as `set_up_accounts` does); an exception from
the session scope is caught and recorded as the pass's critical error,
leaving every rule as loaded.  `body` stands for the
`asyncio.gather(process_setting_outer...)` fan-out: it returns the
mutated rules and the processed/successful counters. -/
def process_client (fs : LockFS) (accounts : List PoolAccount) (client : Client)
    (body : List Setting → List Setting × Nat × Nat) : ClientRun :=
  if client.settings.any (fun s => s.active) then
    let sess := accountCollectionSession fs accounts "raise"
    match sess.raised with
    | some msg =>
      { settingsAfter := client.settings
        criticalError := some ("Error: " ++ msg), processedCount := 0 }
    | none =>
      let r := body client.settings
      { settingsAfter := r.1, criticalError := none, processedCount := r.2.1 }
  else
    { settingsAfter := client.settings, criticalError := none, processedCount := 0 }

/-! ### `telegram_sender.py`: media-group resolution -/

/-- A source-chat message: its id and its media-group id, if any. -/
structure Msg where
  id : Nat
  grouped : Option Nat
deriving DecidableEq, Repr

/-- Telethon `iter_messages(chat, offset_id=o, limit=n)` in the default
(newest-first) order: the messages with id **strictly below** `o`
(`offset_id` is exclusive), newest first, at most `n` of them.  `hist`
is the chat history in ascending id order. -/
def iterDesc (hist : List Msg) (offset lim : Nat) : List Msg :=
  ((hist.filter (fun m => m.id < offset)).reverse).take lim

/-- Telethon `iter_messages(..., reverse=True)`: the messages with id
**strictly above** `offset`, oldest first, at most `lim` of them. -/
def iterAsc (hist : List Msg) (offset lim : Nat) : List Msg :=
  (hist.filter (fun m => offset < m.id)).take lim

/-- Insertion into a sorted list (Python `sorted`, ascending). -/
def insertSorted (a : Nat) : List Nat → List Nat
  | [] => [a]
  | b :: r => if a ≤ b then a :: b :: r else b :: insertSorted a r

/-- Ascending insertion sort: Python `sorted` on ints. -/
def sortNat : List Nat → List Nat
  | [] => []
  | a :: r => insertSorted a (sortNat r)

/-- Python `set(...)` collapsed to a duplicate-free list (kept in a
deterministic order; `sorted` is applied afterwards anyway). -/
def dedupNat : List Nat → List Nat
  | [] => []
  | a :: r => if r.contains a then dedupNat r else a :: dedupNat r

/-- `SenderAccount._get_grouped_message_ids` from
`src/src/messaging/telegram_sender.py`: one `reverse=True` pass and one
default pass around the anchor (both with `offset_id = message_id`,
window 50), keeping ids whose `grouped_id` matches, then
`sorted(list(set(...)))`. -/
def get_grouped_message_ids (hist : List Msg) (message_id grouped_id : Nat) :
    List Nat :=
  let backward := (iterAsc hist message_id 50).filter
    (fun m => m.grouped = some grouped_id)
  let forward := (iterDesc hist message_id 50).filter
    (fun m => m.grouped = some grouped_id && m.id ≠ message_id)
  sortNat (dedupNat ((backward ++ forward).map Msg.id))

/-- `SenderAccount._forward_grouped_or_single`: fetch the anchor (`none`
models the "Не удалось получить исходное сообщение" failure), and
forward either the single anchor or the sorted resolved group; an empty
resolution falls back to the anchor alone. -/
def forward_grouped_or_single (hist : List Msg) (message_id : Nat) :
    Option (List Nat) :=
  match hist.find? (fun m => m.id = message_id) with
  | none => none
  | some src =>
    match src.grouped with
    | none => some [message_id]
    | some gid =>
      let grouped := get_grouped_message_ids hist message_id gid
      if grouped.isEmpty then some [message_id]
      else some (sortNat grouped)

/-- A four-item media group (ids 10–13, group 5): the failing input for
C9. -/
def mediaGroupHistory : List Msg :=
  [⟨10, some 5⟩, ⟨11, some 5⟩, ⟨12, some 5⟩, ⟨13, some 5⟩]

/-! ### `telegram_utils.py`: chat/topic parsing -/

/-- Python `int(str)`: optional surrounding spaces, an optional single
sign, then a non-empty digit string (grouping underscores are not
modelled). -/
def pyInt (l : List Char) : Option Int :=
  let t := ((l.dropWhile (fun c => c = ' ')).reverse.dropWhile
    (fun c => c = ' ')).reverse
  match t with
  | '-' :: ds => (parseNatChars ds).map (fun n => -(n : Int))
  | '+' :: ds => (parseNatChars ds).map (fun n => (n : Int))
  | ds => (parseNatChars ds).map (fun n => (n : Int))

/-- The piece after the last `/` (the candidate topic id):
`chat_id.rsplit("/", 1)[1]`. -/
def lastSlashSuf (s : String) : List Char :=
  (s.data.reverse.takeWhile (fun c => c ≠ '/')).reverse

/-- The piece before the last `/`: `chat_id.rsplit("/", 1)[0]`. -/
def lastSlashPre (s : String) : List Char :=
  ((s.data.reverse.dropWhile (fun c => c ≠ '/')).tail).reverse

/-- Python `str.isdigit` on a character list (ASCII fragment). -/
def isdigitChars (l : List Char) : Bool := !l.isEmpty && l.all isDigitCh

/-- `parse_chat_and_topic` from `src/src/utils/telegram_utils.py` (the
`src/sender.py` copy is identical): split off a trailing `/topic_id`
when the suffix parses as an integer, auto-prefixing a bare-digit chat
part with `-100`; otherwise the whole string is the chat reference. -/
def parse_chat_and_topic (chat_id : String) : String × Option Int :=
  if chat_id.data.contains '/' then
    let pre := lastSlashPre chat_id
    let suf := lastSlashSuf chat_id
    match pyInt suf with
    | some topic_id =>
      let chat_part :=
        if isdigitChars pre && !(List.isPrefixOf "-100".data pre) then
          "-100".data ++ pre
        else pre
      (⟨chat_part⟩, some topic_id)
    | none => (chat_id, none)
  else (chat_id, none)

/-- The parsed form of the `*/15 * * * *` schedule (used to instantiate
the cron-evaluation theorem on a concrete input). -/
def cronQuarterHour : Cron :=
  (parseCronStr "*/15 * * * *").getD
    ⟨⟨true, []⟩, ⟨true, []⟩, ⟨true, []⟩, ⟨true, []⟩, ⟨true, []⟩⟩

/-! ### String lemmas: splitting and joining cron fields -/

theorem asString_data (s : String) : List.asString s.data = s := by
  cases s; rfl

theorem digitChar_ne_space (k : Nat) : digitChar k ≠ ' ' := by
  unfold digitChar; split <;> decide

theorem natCharsAux_no_space :
    ∀ fuel n, ∀ c ∈ natCharsAux fuel n, c ≠ ' ' := by
  intro fuel
  induction fuel with
  | zero => intro n c hc; simp [natCharsAux] at hc
  | succ m ih =>
    intro n c hc
    rw [natCharsAux] at hc
    by_cases hn : n < 10
    · rw [if_pos hn] at hc
      simp at hc
      exact hc ▸ digitChar_ne_space n
    · rw [if_neg hn] at hc
      rcases List.mem_append.mp hc with h | h
      · exact ih _ c h
      · simp at h
        exact h ▸ digitChar_ne_space (n % 10)

theorem natCharsAux_ne_nil (fuel n : Nat) : natCharsAux (fuel + 1) n ≠ [] := by
  rw [natCharsAux]
  by_cases hn : n < 10
  · rw [if_pos hn]; simp
  · rw [if_neg hn]; simp

/-- `str(n)` is a non-empty, space-free field. -/
theorem natRepr_good (n : Nat) :
    (natRepr n).data ≠ [] ∧ ∀ c ∈ (natRepr n).data, c ≠ ' ' :=
  ⟨natCharsAux_ne_nil n n, natCharsAux_no_space (n + 1) n⟩

theorem interval_field_good (n : Nat) :
    ("*/" ++ natRepr n).data ≠ [] ∧ ∀ c ∈ ("*/" ++ natRepr n).data, c ≠ ' ' := by
  constructor
  · simp [String.data_append]
  · intro c hc
    rw [String.data_append] at hc
    rcases List.mem_append.mp hc with h | h
    · have h2 : c = '*' ∨ c = '/' := by simpa using h
      rcases h2 with rfl | rfl <;> decide
    · exact (natRepr_good n).2 c h

theorem exists_five_of_length {α : Type _} {l : List α} (h : l.length = 5) :
    ∃ a b c d e, l = [a, b, c, d, e] := by
  rcases l with _ | ⟨a, _ | ⟨b, _ | ⟨c, _ | ⟨d, _ | ⟨e, _ | ⟨f, r⟩⟩⟩⟩⟩⟩ <;>
    simp only [List.length_nil, List.length_cons] at h <;>
    first
      | omega
      | exact ⟨a, b, c, d, e, rfl⟩

/-- Every field produced by Python `split()` is non-empty and space-free. -/
theorem splitSpAux_mem_good :
    ∀ (l acc : List Char), (∀ c ∈ acc, c ≠ ' ') →
      ∀ w ∈ splitSpAux l acc, w ≠ [] ∧ ∀ c ∈ w, c ≠ ' ' := by
  intro l
  induction l with
  | nil =>
    intro acc hacc w hw
    rw [splitSpAux] at hw
    by_cases he : acc.isEmpty
    · rw [if_pos he] at hw; simp at hw
    · rw [if_neg he] at hw
      simp at hw
      subst hw
      refine ⟨by simpa [List.isEmpty_iff] using he, ?_⟩
      intro c hc
      exact hacc c (List.mem_reverse.mp hc)
  | cons a r ih =>
    intro acc hacc w hw
    rw [splitSpAux] at hw
    by_cases ha : a = ' '
    · rw [if_pos ha] at hw
      by_cases he : acc.isEmpty
      · rw [if_pos he] at hw
        exact ih [] (by simp) w hw
      · rw [if_neg he] at hw
        rcases List.mem_cons.mp hw with h | h
        · subst h
          refine ⟨by simpa [List.isEmpty_iff] using he, ?_⟩
          intro c hc
          exact hacc c (List.mem_reverse.mp hc)
        · exact ih [] (by simp) w h
    · rw [if_neg ha] at hw
      refine ih (a :: acc) ?_ w hw
      intro c hc
      rcases List.mem_cons.mp hc with h | h
      · exact h ▸ ha
      · exact hacc c h

theorem pyFields_mem_good (s : String) :
    ∀ f ∈ pyFields s, f.data ≠ [] ∧ ∀ c ∈ f.data, c ≠ ' ' := by
  intro f hf
  rcases List.mem_map.mp hf with ⟨w, hw, rfl⟩
  have := splitSpAux_mem_good s.data [] (by simp) w hw
  simpa [List.asString] using this

theorem splitSpAux_word (w : List Char) (hw : ∀ c ∈ w, c ≠ ' ') :
    ∀ (l acc : List Char), splitSpAux (w ++ l) acc = splitSpAux l (w.reverse ++ acc) := by
  induction w with
  | nil => intro l acc; simp
  | cons a r ih =>
    intro l acc
    have ha : ¬ a = ' ' := hw a (List.mem_cons_self a r)
    have hr : ∀ c ∈ r, c ≠ ' ' := fun c hc => hw c (List.mem_cons_of_mem a hc)
    show splitSpAux (a :: (r ++ l)) acc = _
    rw [splitSpAux, if_neg ha, ih hr l (a :: acc)]
    simp

/-- Splitting a single-space join of good fields gives the fields back. -/
theorem pyFields_joinFields :
    ∀ (l : List String), (∀ f ∈ l, f.data ≠ [] ∧ ∀ c ∈ f.data, c ≠ ' ') →
      pyFields (joinFields l) = l := by
  intro l
  induction l with
  | nil => intro _; rfl
  | cons x xs ih =>
    intro h
    obtain ⟨hx1, hx2⟩ := h x (List.mem_cons_self x xs)
    cases xs with
    | nil =>
      show pyFields x = [x]
      unfold pyFields
      rw [show x.data = x.data ++ [] by simp, splitSpAux_word x.data hx2 [] []]
      rw [splitSpAux]
      have : ¬ (x.data.reverse ++ []).isEmpty := by
        simp [List.isEmpty_iff, hx1]
      rw [if_neg this]
      simp [asString_data]
    | cons y rest =>
      have hj : joinFields (x :: y :: rest) = x ++ " " ++ joinFields (y :: rest) := rfl
      unfold pyFields
      rw [hj]
      have hdata : (x ++ " " ++ joinFields (y :: rest)).data =
          x.data ++ (' ' :: (joinFields (y :: rest)).data) := by
        simp
      rw [hdata, splitSpAux_word x.data hx2 _ [], splitSpAux]
      have hne : ¬ (x.data.reverse ++ []).isEmpty := by
        simp [List.isEmpty_iff, hx1]
      rw [if_neg hne]
      have htail := ih (fun f hf => h f (List.mem_cons_of_mem x hf))
      unfold pyFields at htail
      simp [asString_data, htail]

theorem pyStartsWith_interval (x : String) : pyStartsWith ("*/" ++ x) "*/" = true := by
  unfold pyStartsWith
  rw [List.isPrefixOf_iff_prefix, String.data_append]
  exact List.prefix_append _ _

/-! ### Specification of the linear forward search -/

theorem findFirstMatch_some_spec (c : Cron) :
    ∀ fuel start m, findFirstMatch c start fuel = some m →
      start ≤ m ∧ m < start + fuel ∧ cronMatches c m = true ∧
        ∀ t, start ≤ t → t < m → cronMatches c t = false := by
  intro fuel
  induction fuel with
  | zero => intro start m h; simp [findFirstMatch] at h
  | succ n ih =>
    intro start m h
    rw [findFirstMatch] at h
    by_cases hm : cronMatches c start = true
    · rw [if_pos hm] at h
      obtain rfl : start = m := by simpa using h
      exact ⟨Nat.le_refl _, by omega, hm, fun t ht1 ht2 => by omega⟩
    · rw [if_neg hm] at h
      obtain ⟨h1, h2, h3, h4⟩ := ih (start + 1) m h
      refine ⟨by omega, by omega, h3, fun t ht1 ht2 => ?_⟩
      rcases Nat.eq_or_lt_of_le ht1 with rfl | hlt
      · exact Bool.not_eq_true _ ▸ hm
      · exact h4 t (by omega) ht2

theorem findFirstMatch_none_spec (c : Cron) :
    ∀ fuel start, findFirstMatch c start fuel = none →
      ∀ t, start ≤ t → t < start + fuel → cronMatches c t = false := by
  intro fuel
  induction fuel with
  | zero => intro start _ t h1 h2; omega
  | succ n ih =>
    intro start h t ht1 ht2
    rw [findFirstMatch] at h
    by_cases hm : cronMatches c start = true
    · rw [if_pos hm] at h; exact absurd h (by simp)
    · rw [if_neg hm] at h
      rcases Nat.eq_or_lt_of_le ht1 with rfl | hlt
      · exact Bool.not_eq_true _ ▸ hm
      · exact ih (start + 1) h t (by omega) (by omega)

/-- **C3.** For a parsed 5-field cron expression, a fixed-offset timezone
and instants `last ≤ now` (with the explicit search bound covering the
interval, mirroring croniter's own bounded search), the due-check is
positive iff a scheduled fire time exists in the half-open wall-clock
interval `(last, now]`; whenever it answers `false` no fire time lies in
that interval.  This is claim C3: `check_cron`/`check_cron_tz` compute
the next fire time strictly after `last` in the timezone's wall clock and
compare it with `now`. -/
theorem check_cron_tz_correct (s : String) (c : Cron)
    (tzOffset last now bound : Nat)
    (_hparse : parseCronStr s = some c)
    (hle : last ≤ now) (hbound : now - last ≤ bound) :
    (check_cron_tz c tzOffset last now bound = some true ↔
      ∃ t, last + tzOffset < t ∧ t ≤ now + tzOffset ∧ cronMatches c t = true) ∧
    (check_cron_tz c tzOffset last now bound = some false →
      ∀ t, last + tzOffset < t → t ≤ now + tzOffset → cronMatches c t = false) := by
  unfold check_cron_tz check_cron get_next
  cases h : findFirstMatch c (last + tzOffset + 1) bound with
  | none =>
    have hnone := findFirstMatch_none_spec c bound (last + tzOffset + 1) h
    constructor
    · simp only [Option.map_none']
      constructor
      · intro hfalse; exact absurd hfalse (by simp)
      · rintro ⟨t, ht1, ht2, htm⟩
        have : cronMatches c t = false := hnone t (by omega) (by omega)
        simp [this] at htm
    · intro hfalse; exact absurd hfalse (by simp)
  | some m =>
    obtain ⟨h1, h2, h3, h4⟩ := findFirstMatch_some_spec c bound (last + tzOffset + 1) m h
    constructor
    · simp only [Option.map_some']
      constructor
      · intro htrue
        have hm : m ≤ now + tzOffset := by simpa using htrue
        exact ⟨m, by omega, hm, h3⟩
      · rintro ⟨t, ht1, ht2, htm⟩
        by_cases hmn : m ≤ now + tzOffset
        · simp [hmn]
        · have : cronMatches c t = false := h4 t (by omega) (by omega)
          simp [this] at htm
    · simp only [Option.map_some']
      intro hfalse t ht1 ht2
      have hm : ¬ m ≤ now + tzOffset := by simpa using hfalse
      exact h4 t (by omega) (by omega)

/-- Witness for C3 at a concrete input: the `*/15 * * * *` schedule in a
UTC+3 timezone, `last` = minute 645 (10:45), `now` = minute 660 (11:00),
search bound 60.  All hypotheses are discharged by evaluation. -/
theorem check_cron_tz_correct_witness :
    parseCronStr "*/15 * * * *" = some cronQuarterHour ∧ 645 ≤ 660 ∧
      660 - 645 ≤ 60 ∧
      ((check_cron_tz cronQuarterHour 180 645 660 60 = some true ↔
        ∃ t, 645 + 180 < t ∧ t ≤ 660 + 180 ∧ cronMatches cronQuarterHour t = true) ∧
      (check_cron_tz cronQuarterHour 180 645 660 60 = some false →
        ∀ t, 645 + 180 < t → t ≤ 660 + 180 → cronMatches cronQuarterHour t = false)) :=
  ⟨by decide, by decide, by decide,
    check_cron_tz_correct "*/15 * * * *" cronQuarterHour 180 645 660 60
      (by decide) (by decide) (by decide)⟩

/-- The three trailing fields survive a re-split of every string
`adjust_cron_interval` can build. -/
theorem pyFields_rebuild (x y c d e : String)
    (hx : x.data ≠ [] ∧ ∀ ch ∈ x.data, ch ≠ ' ')
    (hy : y.data ≠ [] ∧ ∀ ch ∈ y.data, ch ≠ ' ')
    (hc : c.data ≠ [] ∧ ∀ ch ∈ c.data, ch ≠ ' ')
    (hd : d.data ≠ [] ∧ ∀ ch ∈ d.data, ch ≠ ' ')
    (he : e.data ≠ [] ∧ ∀ ch ∈ e.data, ch ≠ ' ') :
    pyFields (joinFields [x, y, c, d, e]) = [x, y, c, d, e] := by
  refine pyFields_joinFields _ ?_
  intro f hf
  simp only [List.mem_cons, List.not_mem_nil, or_false] at hf
  rcases hf with rfl | rfl | rfl | rfl | rfl <;> assumption

theorem zero_field_good :
    ("0" : String).data ≠ [] ∧ ∀ ch ∈ ("0" : String).data, ch ≠ ' ' :=
  ⟨by decide, by decide⟩

/-- **C6.** `adjust_cron_interval` (the spec's `tightenInterval`) is
idempotent: re-tightening its own output with the same requirement (and
the same sampling instant) changes nothing.  Stated for every 5-field
expression and positive requirement, as the claim does. -/
theorem adjust_cron_interval_idempotent (s : String) (h now bound : Nat)
    (h5 : (pyFields s).length = 5) (_hpos : 0 < h) :
    (adjust_cron_interval s h now bound).bind
        (fun r => adjust_cron_interval r h now bound) =
      adjust_cron_interval s h now bound := by
  obtain ⟨a, b, c, d, e, hl⟩ := exists_five_of_length h5
  have hc := pyFields_mem_good s c (by rw [hl]; simp)
  have hd := pyFields_mem_good s d (by rw [hl]; simp)
  have he := pyFields_mem_good s e (by rw [hl]; simp)
  by_cases g1 : h * (calculate_interval_hours s now bound).2 ≤
      (calculate_interval_hours s now bound).1
  · have e1 : adjust_cron_interval s h now bound = some s := by
      simp only [adjust_cron_interval, hl]
      rw [if_pos g1]
    rw [e1, Option.some_bind]
    exact e1
  · by_cases g2 : 24 < h
    · have e1 : adjust_cron_interval s h now bound =
          some (joinFields ["0", "0", c, d, e]) := by
        simp only [adjust_cron_interval, hl]
        rw [if_neg g1, if_pos g2]
      have hfr : pyFields (joinFields ["0", "0", c, d, e]) = ["0", "0", c, d, e] :=
        pyFields_rebuild _ _ _ _ _ zero_field_good zero_field_good hc hd he
      rw [e1, Option.some_bind]
      simp only [adjust_cron_interval, hfr]
      by_cases g3 : h * (calculate_interval_hours (joinFields ["0", "0", c, d, e])
          now bound).2 ≤
          (calculate_interval_hours (joinFields ["0", "0", c, d, e]) now bound).1
      · rw [if_pos g3]
      · rw [if_neg g3, if_pos g2]
    · have e1 : adjust_cron_interval s h now bound =
          some (joinFields ["0", "*/" ++ natRepr h, c, d, e]) := by
        simp only [adjust_cron_interval, hl]
        rw [if_neg g1, if_neg g2]
        split_ifs <;> rfl
      have hfr : pyFields (joinFields ["0", "*/" ++ natRepr h, c, d, e]) =
          ["0", "*/" ++ natRepr h, c, d, e] :=
        pyFields_rebuild _ _ _ _ _ zero_field_good (interval_field_good h) hc hd he
      rw [e1, Option.some_bind]
      simp only [adjust_cron_interval, hfr]
      by_cases g3 : h * (calculate_interval_hours
          (joinFields ["0", "*/" ++ natRepr h, c, d, e]) now bound).2 ≤
          (calculate_interval_hours (joinFields ["0", "*/" ++ natRepr h, c, d, e])
            now bound).1
      · rw [if_pos g3]
      · have hb : (pyStartsWith ("*/" ++ natRepr h) "*/" ||
            decide (("*/" ++ natRepr h : String) = "*")) = true := by
          rw [pyStartsWith_interval]
          rfl
        rw [if_neg g3, if_neg g2, if_pos hb]

/-- Witness for C6 at a concrete input: tightening `*/30 * * * *` to a
2-hour interval twice equals tightening it once. -/
theorem adjust_cron_interval_idempotent_witness :
    (pyFields "*/30 * * * *").length = 5 ∧ 0 < 2 ∧
      ((adjust_cron_interval "*/30 * * * *" 2 0 31).bind
          (fun r => adjust_cron_interval r 2 0 31) =
        adjust_cron_interval "*/30 * * * *" 2 0 31) :=
  ⟨by decide, by decide,
    adjust_cron_interval_idempotent "*/30 * * * *" 2 0 31 (by decide) (by decide)⟩

/-- **C7.** `adjust_cron_interval` (the spec's `tightenInterval`) never
changes the day-of-month, month or day-of-week fields: whenever it
returns a schedule, the fields from position 2 on are those of the
input.  Only the minute and hour fields may be rewritten. -/
theorem adjust_cron_interval_preserves_dmw (s : String) (h now bound : Nat)
    (h5 : (pyFields s).length = 5) :
    ∀ out, adjust_cron_interval s h now bound = some out →
      (pyFields out).drop 2 = (pyFields s).drop 2 := by
  obtain ⟨a, b, c, d, e, hl⟩ := exists_five_of_length h5
  intro out hout
  have hc := pyFields_mem_good s c (by rw [hl]; simp)
  have hd := pyFields_mem_good s d (by rw [hl]; simp)
  have he := pyFields_mem_good s e (by rw [hl]; simp)
  have h0 : ("0" : String).data ≠ [] ∧ ∀ ch ∈ ("0" : String).data, ch ≠ ' ' := by
    constructor
    · decide
    · intro ch hch
      have : ch = '0' := by simpa using hch
      subst this; decide
  simp only [adjust_cron_interval, hl] at hout
  split_ifs at hout with g1 g2 g3 g4 g5 <;>
    rw [Option.some_inj] at hout <;> subst hout
  · rfl
  all_goals
    rw [pyFields_rebuild _ _ _ _ _ (by first | exact h0 | exact interval_field_good h)
          (by first | exact h0 | exact interval_field_good h) hc hd he, hl]
  all_goals rfl

/-- Witness for C7 at a concrete input: tightening `*/30 * * * *` to a
2-hour interval yields `0 */2 * * *`, whose last three fields are those
of the input. -/
theorem adjust_cron_interval_preserves_dmw_witness :
    (pyFields "*/30 * * * *").length = 5 ∧
      adjust_cron_interval "*/30 * * * *" 2 0 31 = some "0 */2 * * *" ∧
      (pyFields "0 */2 * * *").drop 2 = (pyFields "*/30 * * * *").drop 2 :=
  ⟨by decide, by decide,
    adjust_cron_interval_preserves_dmw "*/30 * * * *" 2 0 31 (by decide)
      "0 */2 * * *" (by decide)⟩

/-- **C5, counterexample.**  The claim says `tightenInterval("0 9 * * *", 2)`
returns `0 */2 * * *`.  It does not: a daily single-hour schedule has
average interval 24 h ≥ 2 h, so the sufficiency guard returns it
unchanged; the anchor-discarding rewrite is never reached. -/
theorem adjust_cron_interval_single_hour_counterexample :
    adjust_cron_interval "0 9 * * *" 2 0 1441 = some "0 9 * * *" ∧
      some ("0 9 * * *" : String) ≠ some ("0 */2 * * *" : String) :=
  ⟨by decide, by decide⟩

/-- **C5, amended.**  The `*/N`-from-hour-0 normalization happens only
when the current average interval is below the requirement: `0 9 * * *`
under a 2-hour requirement passes the guard and is returned unchanged
(still anchored at 9), while an insufficient multi-hour schedule such as
`0 9,14,18 * * *` under a 10-hour requirement is rewritten to
`0 */10 * * *`, discarding the original anchor hours. -/
theorem adjust_cron_interval_anchor_amended :
    adjust_cron_interval "0 9 * * *" 2 0 1441 = some "0 9 * * *" ∧
      adjust_cron_interval "0 9,14,18 * * *" 10 0 1441 = some "0 */10 * * *" :=
  ⟨by decide, by decide⟩

/-! ### Substring lemmas for the outcome-classification discipline -/

theorem containsSubAux_nil_sub (l : List Char) : containsSubAux [] l = true := by
  cases l <;> simp [containsSubAux, List.isPrefixOf]

theorem containsSubAux_append_left (sub l₁ l₂ : List Char)
    (h : containsSubAux sub l₁ = true) :
    containsSubAux sub (l₁ ++ l₂) = true := by
  induction l₁ with
  | nil =>
    simp only [containsSubAux] at h
    have : sub = [] := by simpa [List.isEmpty_iff] using h
    subst this
    simp [containsSubAux_nil_sub]
  | cons c r ih =>
    simp only [containsSubAux, Bool.or_eq_true] at h ⊢
    rcases h with h | h
    · left
      rw [List.isPrefixOf_iff_prefix] at h ⊢
      exact h.trans (List.prefix_append _ _)
    · right
      exact ih h

/-- Any traceback appended to `"Logging error: "` yields an outcome that
the `"error" in result.lower()` test catches. -/
theorem containsSub_logging_error (tb : String) :
    containsSub "error" (pyLower ("Logging error: " ++ tb)) = true := by
  unfold containsSub pyLower
  show containsSubAux "error".data (List.map Char.toLower ("Logging error: " ++ tb).data) = true
  rw [String.data_append, List.map_append]
  exact containsSubAux_append_left _ _ _ (by decide)

/-! ### C4: the slow-mode scenario -/

/-- **C4, counterexample.**  On the 1800-second scenario the write-back
field set of the current handler (`error_handlers.py`) is
`{schedule, error, link}`, not the claimed `{schedule, error}`. -/
theorem slow_mode_fields_counterexample :
    (handle_slow_mode_error slowModeClient slowModeSettingA 1800 0 31).map
        SlowModeOutcome.gsheetWrites = some [["schedule", "error", "link"]] ∧
      some [["schedule", "error", "link"]] ≠
        some ([["schedule", "error"]] : List (List String)) :=
  ⟨by decide, by decide⟩

/-- **C4, amended.**  A 1800-second slow-mode wait on a chat with two
active `*/30 * * * *` rules rewrites both schedules to `0 */1 * * *`
(`ceil(1800·1.2/3600) = 1`), stamps both error fields, and invokes the
config-store write-back exactly once — with fields
`{schedule, error, link}` in the current `error_handlers.py` handler
(the historical `sender.py` copy writes `{schedule, error}`). -/
theorem slow_mode_scenario_amended :
    (handle_slow_mode_error slowModeClient slowModeSettingA 1800 0 31).map
        (fun out => (out.settings.map Setting.schedule,
          out.settings.all (fun s => s.error ≠ ""), out.gsheetWrites, out.message)) =
      some (["0 */1 * * *", "0 */1 * * *"], true, [["schedule", "error", "link"]],
        "Schedule auto-adjusted to every 1 hours for 2 settings in chat chatA") ∧
    (sender_handle_slow_mode_error slowModeClient slowModeSettingA 1800 0 31).map
        (fun out => (out.settings.map Setting.schedule, out.gsheetWrites)) =
      some (["0 */1 * * *", "0 */1 * * *"], [["schedule", "error"]]) :=
  ⟨by decide, by decide⟩

/-! ### C1: the never-sent-before path -/

/-- **C1, counterexample.**  An active rule with no prior success gets
the outcome `"Message was never sent before: logged successfully"` and
is counted as processed, but `send_setting` is **not** invoked in that
pass — the claim's "performs the send-or-forward action in that same
pass" fails. -/
theorem never_sent_counterexample :
    (process_setting_outer slowModeSettingA none 180 0 31
        ("Message sent successfully", none) true "tb" "2025-06-01 12:00:00" none).result =
      "Message was never sent before: logged successfully" ∧
    (process_setting_outer slowModeSettingA none 180 0 31
        ("Message sent successfully", none) true "tb" "2025-06-01 12:00:00" none).was_processed
      = true ∧
    (process_setting_outer slowModeSettingA none 180 0 31
        ("Message sent successfully", none) true "tb" "2025-06-01 12:00:00" none).send_invoked
      = false :=
  ⟨by decide, by decide, by decide⟩

/-- **C1, amended.**  For every active rule with no prior successful log
entry (and a successful log write), the engine records the outcome
"never sent before", counts the rule as processed and successful
(`processedCount += 1`), leaves it active with an `ОК:` timestamp — but
performs **no** send or forward in that pass; the logged success only
becomes the baseline for the next pass's cron evaluation. -/
theorem never_sent_amended (setting : Setting) (tzOffset now bound : Nat)
    (sendOutcome : String × Option MessageInfo) (logTb timestamp : String)
    (linkGen : Option String) (hactive : setting.active = true) :
    (process_setting_outer setting none tzOffset now bound sendOutcome true
        logTb timestamp linkGen).result =
      "Message was never sent before: logged successfully" ∧
    (process_setting_outer setting none tzOffset now bound sendOutcome true
        logTb timestamp linkGen).was_processed = true ∧
    (process_setting_outer setting none tzOffset now bound sendOutcome true
        logTb timestamp linkGen).was_successful = true ∧
    (process_setting_outer setting none tzOffset now bound sendOutcome true
        logTb timestamp linkGen).send_invoked = false ∧
    (process_setting_outer setting none tzOffset now bound sendOutcome true
        logTb timestamp linkGen).setting.active = true ∧
    (process_setting_outer setting none tzOffset now bound sendOutcome true
        logTb timestamp linkGen).setting.error = "ОК: " ++ timestamp := by
  have herr : containsSub "error"
      (pyLower "Message was never sent before: logged successfully") = false := by
    decide
  have hsucc : containsSub "successfully"
      (pyLower "Message was never sent before: logged successfully") = true := by
    decide
  simp [process_setting_outer, hactive, herr, hsucc]

/-- Witness for the amended C1 on a concrete rule. -/
theorem never_sent_amended_witness :
    slowModeSettingA.active = true ∧
    ((process_setting_outer slowModeSettingA none 180 0 31
        ("Message sent successfully", none) true "tb" "2025-06-01 12:00:00" none).result =
      "Message was never sent before: logged successfully" ∧
    (process_setting_outer slowModeSettingA none 180 0 31
        ("Message sent successfully", none) true "tb" "2025-06-01 12:00:00" none).was_processed = true ∧
    (process_setting_outer slowModeSettingA none 180 0 31
        ("Message sent successfully", none) true "tb" "2025-06-01 12:00:00" none).was_successful = true ∧
    (process_setting_outer slowModeSettingA none 180 0 31
        ("Message sent successfully", none) true "tb" "2025-06-01 12:00:00" none).send_invoked = false ∧
    (process_setting_outer slowModeSettingA none 180 0 31
        ("Message sent successfully", none) true "tb" "2025-06-01 12:00:00" none).setting.active = true ∧
    (process_setting_outer slowModeSettingA none 180 0 31
        ("Message sent successfully", none) true "tb" "2025-06-01 12:00:00" none).setting.error =
      "ОК: " ++ "2025-06-01 12:00:00") :=
  ⟨by decide,
    never_sent_amended slowModeSettingA 180 0 31 ("Message sent successfully", none)
      "tb" "2025-06-01 12:00:00" none (by decide)⟩

/-! ### C2: log-store write failure -/

/-- **C2, counterexample.**  A rule whose send attempt succeeded
(`send_setting` was invoked and returned a success outcome) is disabled
anyway when the log-store write fails: `active` becomes false and the
error field holds the logging annotation — the claim's "a successful
send still leaves the rule active" is false. -/
theorem logging_failure_counterexample :
    (process_setting_outer slowModeSettingA (some 100) 0 200 31
        ("Message sent successfully", none) false "boom" "ts" none).send_invoked = true ∧
    (process_setting_outer slowModeSettingA (some 100) 0 200 31
        ("Message sent successfully", none) false "boom" "ts" none).setting.active = false ∧
    (process_setting_outer slowModeSettingA (some 100) 0 200 31
        ("Message sent successfully", none) false "boom" "ts" none).was_successful = false :=
  ⟨by decide, by decide, by decide⟩

/-- **C2, amended.**  Whatever the send attempt produced, a log-store
write failure replaces the outcome with `"Logging error: <traceback>"`;
because that annotation contains "error", the rule is **disabled**
(`active := false`, `error` set to the annotation, an entry added to the
error map) and a processed rule is counted unsuccessful.  The send
attempt's own `active`/`error` mutation does not survive. -/
theorem logging_failure_amended (setting : Setting) (lastSuccess : Option Nat)
    (tzOffset now bound : Nat) (sendOutcome : String × Option MessageInfo)
    (logTb timestamp : String) (linkGen : Option String) :
    (process_setting_outer setting lastSuccess tzOffset now bound sendOutcome
        false logTb timestamp linkGen).result = "Logging error: " ++ logTb ∧
    (process_setting_outer setting lastSuccess tzOffset now bound sendOutcome
        false logTb timestamp linkGen).setting.active = false ∧
    (process_setting_outer setting lastSuccess tzOffset now bound sendOutcome
        false logTb timestamp linkGen).setting.error = "Logging error: " ++ logTb ∧
    (process_setting_outer setting lastSuccess tzOffset now bound sendOutcome
        false logTb timestamp linkGen).error_recorded =
      some ("Logging error: " ++ logTb) ∧
    ((process_setting_outer setting lastSuccess tzOffset now bound sendOutcome
        false logTb timestamp linkGen).was_processed = true →
      (process_setting_outer setting lastSuccess tzOffset now bound sendOutcome
        false logTb timestamp linkGen).was_successful = false) := by
  have herr := containsSub_logging_error logTb
  refine ⟨?_, ?_, ?_, ?_, ?_⟩ <;>
    simp [process_setting_outer, herr] <;>
    intro h <;> simp [h]

/-- Witness for the amended C2 on a concrete rule and traceback. -/
theorem logging_failure_amended_witness :
    (process_setting_outer slowModeSettingA (some 100) 0 200 31
        ("Message sent successfully", none) false "boom" "ts" none).was_processed = true ∧
    (process_setting_outer slowModeSettingA (some 100) 0 200 31
        ("Message sent successfully", none) false "boom" "ts" none).was_successful = false :=
  ⟨by decide,
    (logging_failure_amended slowModeSettingA (some 100) 0 200 31
      ("Message sent successfully", none) "boom" "ts" none).2.2.2.2 (by decide)⟩

/-! ### C8: the advisory lock aborts the pass atomically -/

/-- **C8.** When the advisory lock marker already exists at pool-session
entry, the pass fails immediately with the sessions-in-use error: no
account start is attempted, the body never runs, the lock marker is left
exactly as it was, and through `process_client` no rule is mutated and
nothing is counted as processed. -/
theorem session_lock_aborts (fs : LockFS) (accounts : List PoolAccount)
    (client : Client) (invalid : String)
    (body : List Setting → List Setting × Nat × Nat)
    (hlock : fs.lockExists = true) :
    accountCollectionSession fs accounts invalid =
      ⟨fs, accounts, 0, some "Sessions are already in use", false⟩ ∧
    (process_client fs accounts client body).settingsAfter = client.settings ∧
    (process_client fs accounts client body).processedCount = 0 := by
  have h1 : ∀ inv : String, accountCollectionSession fs accounts inv =
      ⟨fs, accounts, 0, some "Sessions are already in use", false⟩ := by
    intro inv
    simp [accountCollectionSession, hlock]
  refine ⟨h1 invalid, ?_, ?_⟩ <;>
    by_cases hact : client.settings.any (fun s => s.active) = true <;>
    simp [process_client, hact, h1 "raise"]

/-- Witness for C8: a pre-existing lock, one startable account, the
two-rule client, and a body that would wipe every rule — none of which
happens. -/
theorem session_lock_aborts_witness :
    (⟨true⟩ : LockFS).lockExists = true ∧
    (accountCollectionSession ⟨true⟩ [⟨"79990000001", false, true⟩] "raise" =
      ⟨⟨true⟩, [⟨"79990000001", false, true⟩], 0,
        some "Sessions are already in use", false⟩ ∧
    (process_client ⟨true⟩ [⟨"79990000001", false, true⟩] slowModeClient
        (fun _ => ([], 7, 7))).settingsAfter = slowModeClient.settings ∧
    (process_client ⟨true⟩ [⟨"79990000001", false, true⟩] slowModeClient
        (fun _ => ([], 7, 7))).processedCount = 0) :=
  ⟨by decide,
    session_lock_aborts ⟨true⟩ [⟨"79990000001", false, true⟩] slowModeClient
      "raise" (fun _ => ([], 7, 7)) (by decide)⟩

/-! ### C9: media-group resolution drops the anchor -/

/-- **C9 (code bug).**  Resolving a four-item media group (ids 10–13)
from anchor 11 forwards `[10, 12, 13]`: both Telethon iterations use the
exclusive `offset_id = message_id` (one upward, one downward), so the
anchor itself is never collected, and `_forward_grouped_or_single`
forwards the siblings without the anchor — contradicting the claim (and
the integration test, which forwards a 4-item album from one of its
anchors and expects 4 messages). -/
theorem media_group_anchor_dropped :
    forward_grouped_or_single mediaGroupHistory 11 = some [10, 12, 13] ∧
      ¬ (11 ∈ [10, 12, 13]) :=
  ⟨by decide, by decide⟩

/-! ### C10: chat/topic reference parsing -/

/-- **C10.** When the target contains a `/`, the part after the last `/`
parses as an integer, and the part before it is a bare digit string (so
in particular does not start with `-100`), `parse_chat_and_topic`
rewrites the chat part to the `-100`-prefixed supergroup form with that
topic id; when the suffix is not an integer, the entire string is the
chat reference and there is no topic. -/
theorem parse_chat_and_topic_correct (s : String)
    (hs : s.data.contains '/' = true) :
    (∀ n, pyInt (lastSlashSuf s) = some n →
        isdigitChars (lastSlashPre s) = true →
        List.isPrefixOf "-100".data (lastSlashPre s) = false →
        parse_chat_and_topic s = (⟨"-100".data ++ lastSlashPre s⟩, some n)) ∧
    (pyInt (lastSlashSuf s) = none → parse_chat_and_topic s = (s, none)) := by
  have hs' : '/' ∈ s.data := by simpa using hs
  constructor
  · intro n hn hdig hpre
    simp [parse_chat_and_topic, hs', hn, hdig, hpre]
  · intro hn
    simp [parse_chat_and_topic, hs', hn]

/-- Witness for C10: the docstring's own example, and a non-numeric
suffix. -/
theorem parse_chat_and_topic_correct_witness :
    parse_chat_and_topic "1826486256/7832" = ("-1001826486256", some 7832) ∧
    parse_chat_and_topic "@mychannel/abc" = ("@mychannel/abc", none) := by
  constructor
  · have h := (parse_chat_and_topic_correct "1826486256/7832" (by decide)).1 7832
      (by decide) (by decide) (by decide)
    rw [h]; decide
  · exact (parse_chat_and_topic_correct "@mychannel/abc" (by decide)).2 (by decide)

end Sender
